import Mathlib

set_option maxHeartbeats 1600000
set_option maxRecDepth 16384

/-!
Verification development for the Sally content-rating tool (`app.py`).

The Python source is shallowly embedded: strings are `String` (lists of Unicode
code points, as in Python 3), machine floats become `ℚ` for the purely rational
score arithmetic and `ℝ` for the one scorer that uses `math.log10`, and the
`re`-module calls are embedded through a small backtracking matcher for the
linear patterns (literals, character classes with counted quantifiers, and
alternations of literals) that the source actually uses.

A point that matters throughout: several regexes in `app.py` are written inside
raw strings with doubled backslashes, e.g. `r"<img\\b[^>]*>"` or `r"\\s+"`.
In a Python raw string `\\` is two characters (backslash, backslash), which the
`re` engine reads as an escaped literal backslash.  So `r"\\s+"` matches a
literal backslash followed by letters `s` — not whitespace — and
`r"<img\\b"` matches `<img` followed by a literal backslash and a `b`.  The
patterns below reproduce this faithfully.
-/

namespace Sally

/-- Regex atoms: the source's patterns are linear sequences of literals,
character classes with `{lo,hi}`-style quantifiers (greedy or lazy), and
alternations of plain literals. -/
inductive RAtom where
  | lit (cs : List Char) (ci : Bool)
  | alts (ls : List (List Char)) (ci : Bool)
  | cls (p : Char → Bool) (lo : ℕ) (hi : Option ℕ) (greedy : Bool)

/-- A pattern is a list of atoms, each flagged with whether it lies inside the
(single) capture group of the source regex. -/
abbrev RPattern := List (RAtom × Bool)

/-- Case folding used by `re.IGNORECASE`; the source's case-insensitive
literals are ASCII, for which `Char.toLower` agrees with Python. -/
def charMatches (ci : Bool) (pat input : Char) : Bool :=
  if ci then pat.toLower = input.toLower else pat = input

/-- Match a literal (sequence of characters), returning the rest of the input. -/
def matchLit (ci : Bool) : List Char → List Char → Option (List Char)
  | [], s => some s
  | _ :: _, [] => none
  | c :: cs, d :: s => if charMatches ci c d then matchLit ci cs s else none

/-- Length of the maximal prefix of the input satisfying a class predicate. -/
def takeCount (p : Char → Bool) : List Char → ℕ
  | [] => 0
  | c :: t => if p c then takeCount p t + 1 else 0

/-- Candidate repetition counts for a class atom, in the order a backtracking
engine tries them: greedy quantifiers from the longest feasible count down,
lazy quantifiers from the shortest up. -/
def countsFor (lo : ℕ) (hi : Option ℕ) (greedy : Bool) (run : ℕ) : List ℕ :=
  let top := match hi with
    | none => run
    | some h => min h run
  if top < lo then []
  else if greedy then (List.range (top + 1 - lo)).map (fun i => top - i)
  else (List.range (top + 1 - lo)).map (fun i => lo + i)

/-- Backtracking matcher for a pattern anchored at the start of the input.
Returns the captured characters and the input remaining after the match.
The fuel argument only needs to exceed the number of atoms. -/
def runMatch : ℕ → RPattern → List Char → Option (List Char × List Char)
  | 0, _, _ => none
  | _ + 1, [], s => some ([], s)
  | f + 1, (RAtom.lit cs ci, b) :: t, s =>
    match matchLit ci cs s with
    | none => none
    | some rest =>
      match runMatch f t rest with
      | none => none
      | some (cap, r) => some ((if b then s.take cs.length else []) ++ cap, r)
  | f + 1, (RAtom.alts ls ci, b) :: t, s =>
    ls.findSome? (fun l =>
      match matchLit ci l s with
      | none => none
      | some rest =>
        match runMatch f t rest with
        | none => none
        | some (cap, r) => some ((if b then s.take l.length else []) ++ cap, r))
  | f + 1, (RAtom.cls p lo hi g, b) :: t, s =>
    (countsFor lo hi g (takeCount p s)).findSome? (fun n =>
      match runMatch f t (s.drop n) with
      | none => none
      | some (cap, r) => some ((if b then s.take n else []) ++ cap, r))

/-- Match a pattern at the start of the input. -/
def patMatch (pat : RPattern) (s : List Char) : Option (List Char × List Char) :=
  runMatch (pat.length + 1) pat s

/-- Leftmost match over the whole input (Python `re.search`), returning the
captured group. -/
def searchCapture (pat : RPattern) : List Char → Option (List Char)
  | [] =>
    match patMatch pat [] with
    | some (cap, _) => some cap
    | none => none
  | c :: t =>
    match patMatch pat (c :: t) with
    | some (cap, _) => some cap
    | none => searchCapture pat t

/-- Python `pattern.search(s)` restricted to returning the capture group. -/
def reSearch (pat : RPattern) (s : String) : Option String :=
  (searchCapture pat s.data).map String.mk

/-- Worker for `re.findall`: non-overlapping leftmost matches; on a
zero-width match the scan advances one character, as in Python. -/
def findAllAux : ℕ → RPattern → List Char → List (List Char)
  | 0, _, _ => []
  | f + 1, pat, s =>
    match patMatch pat s with
    | some (cap, rest) =>
      if rest.length < s.length then cap :: findAllAux f pat rest
      else
        match s with
        | [] => [cap]
        | _ :: t => cap :: findAllAux f pat t
    | none =>
      match s with
      | [] => []
      | _ :: t => findAllAux f pat t

/-- Python `re.findall` (capture-group results; for whole-match results every
atom of the pattern is flagged as captured). -/
def reFindAll (pat : RPattern) (s : String) : List String :=
  (findAllAux (s.data.length + 1) pat s.data).map String.mk

/-- Worker for `re.sub`. -/
def subAux : ℕ → RPattern → List Char → List Char → List Char
  | 0, _, _, s => s
  | f + 1, pat, repl, s =>
    match patMatch pat s with
    | some (_, rest) =>
      if rest.length < s.length then repl ++ subAux f pat repl rest
      else
        match s with
        | [] => repl
        | c :: t => repl ++ (c :: subAux f pat repl t)
    | none =>
      match s with
      | [] => []
      | c :: t => c :: subAux f pat repl t

/-- Python `re.sub(pattern, repl, s)` for a plain replacement string. -/
def reSub (pat : RPattern) (repl s : String) : String :=
  String.mk (subAux (s.data.length + 1) pat repl.data s.data)

/-- Worker for `re.split`. -/
def splitAux : ℕ → RPattern → List Char → List Char → List (List Char)
  | 0, _, acc, s => [acc ++ s]
  | f + 1, pat, acc, s =>
    match patMatch pat s with
    | some (_, rest) =>
      if rest.length < s.length then acc :: splitAux f pat [] rest
      else
        match s with
        | [] => [acc]
        | c :: t => splitAux f pat (acc ++ [c]) t
    | none =>
      match s with
      | [] => [acc]
      | c :: t => splitAux f pat (acc ++ [c]) t

/-- Python `re.split(pattern, s)` (for patterns without capture groups). -/
def reSplit (pat : RPattern) (s : String) : List String :=
  (splitAux (s.data.length + 1) pat [] s.data).map String.mk

/-! Python string primitives used by the source. -/

/-- Whitespace in the sense of Python's `str.isspace` and the `re` class
`\s` (the code points that occur in practice; both Python notions agree on
this set). -/
def pyIsSpace (c : Char) : Bool :=
  c = ' ' || ('\x09' ≤ c && c ≤ '\x0d') || ('\x1c' ≤ c && c ≤ '\x1f') ||
    c = '\x85' || c = ' ' || c = ' ' || (' ' ≤ c && c ≤ ' ') ||
    c = ' ' || c = ' ' || c = ' ' || c = ' ' || c = '　'

/-- Python `str.strip()` (no arguments): trim whitespace from both ends. -/
def pyStrip (s : String) : String :=
  String.mk (((s.data.dropWhile pyIsSpace).reverse.dropWhile pyIsSpace).reverse)

/-- Python `str.rstrip()`: trim whitespace from the right end. -/
def pyRstrip (s : String) : String :=
  String.mk ((s.data.reverse.dropWhile pyIsSpace).reverse)

/-- Python `str.lstrip("#")`: drop leading `#` characters. -/
def pyLstripHash (s : String) : String :=
  String.mk (s.data.dropWhile (fun c => c = '#'))

/-- Python `str.split(sep)` for a one-character separator: split at every
occurrence, keeping empty pieces. -/
def pySplitChar (sep : Char) : List Char → List (List Char)
  | [] => [[]]
  | c :: t =>
    let r := pySplitChar sep t
    if c = sep then [] :: r
    else
      match r with
      | [] => [[c]]
      | h :: r2 => (c :: h) :: r2

/-- Python `s.split(sep)` on strings. -/
def pySplitOn (s : String) (sep : Char) : List String :=
  (pySplitChar sep s.data).map String.mk

/-- Number of words of Python `str.split()` with no separator (maximal
non-whitespace runs). -/
def pyWordCount (s : String) : ℕ :=
  ((s.data.foldl
    (fun st c =>
      let inw := !(pyIsSpace c)
      (inw, if inw && !st.1 then st.2 + 1 else st.2))
    ((false : Bool), (0 : ℕ)))).2

/-- Python's substring test `needle in hay`. -/
def isSubstring (needle hay : String) : Bool :=
  (List.range (hay.data.length + 1)).any
    (fun i => needle.data.isPrefixOf (hay.data.drop i))

/-- Worker for `dict.fromkeys`-style deduplication (first occurrence wins),
with an accumulator of already-seen entries. -/
def pyDedupAux : List String → List String → List String
  | _, [] => []
  | seen, h :: t => if h ∈ seen then pyDedupAux seen t else h :: pyDedupAux (h :: seen) t

/-- Python `list(dict.fromkeys(l))`: deduplicate keeping first occurrences. -/
def pyDedup (l : List String) : List String := pyDedupAux [] l

/-- Digits-only string to a natural number (used where the source applies
`int` to a regex group matched by `[0-9]{1,9}`). -/
def natOfDigits (s : String) : ℕ :=
  s.data.foldl (fun n c => n * 10 + (c.toNat - 48)) 0

/-- Worker for `pyInt`: digits with single underscores allowed between
digits, as accepted by Python's `int`. -/
def pyDigitsU : ℕ → List Char → Option ℕ
  | acc, [] => some acc
  | _, '_' :: [] => none
  | acc, '_' :: c :: t =>
    if c.isDigit then pyDigitsU (acc * 10 + (c.toNat - 48)) t else none
  | acc, c :: t =>
    if c.isDigit then pyDigitsU (acc * 10 + (c.toNat - 48)) t else none

/-- Python `int(s)` for ASCII decimal strings: optional surrounding
whitespace, optional sign, digits with single interior underscores; anything
else is a parse failure (`None` here stands for the raised `ValueError`). -/
def pyInt (s : String) : Option ℤ :=
  match (pyStrip s).data with
  | [] => none
  | '+' :: ds =>
    match ds with
    | [] => none
    | c :: t => if c.isDigit then (pyDigitsU (c.toNat - 48) t).map (fun n => (n : ℤ)) else none
  | '-' :: ds =>
    match ds with
    | [] => none
    | c :: t => if c.isDigit then (pyDigitsU (c.toNat - 48) t).map (fun n => -(n : ℤ)) else none
  | c :: t => if c.isDigit then (pyDigitsU (c.toNat - 48) t).map (fun n => (n : ℤ)) else none

/-! Model of Python's `html.unescape`.  The full HTML5 entity table has
thousands of entries; this model covers decimal and hexadecimal character
references and the common named entities listed below, all requiring the
terminating semicolon.  Every concrete input appearing in the theorems of
this file stays inside this fragment (most contain no `&` at all). -/

/-- Named entities covered by the `pyUnescape` model. -/
def entityTable : List (String × Char) :=
  [("amp", '&'), ("lt", '<'), ("gt", '>'), ("quot", '"'), ("apos", '\x27'), ("nbsp", ' ')]

/-- Decode one numeric character reference body (digits already isolated). -/
def decodeCodepoint (n : ℕ) : Char :=
  if h : n.isValidChar then Char.ofNatAux n h else '�'

/-- Hexadecimal digit value. -/
def hexVal (c : Char) : Option ℕ :=
  if c.isDigit then some (c.toNat - 48)
  else if 'a' ≤ c && c ≤ 'f' then some (c.toNat - 87)
  else if 'A' ≤ c && c ≤ 'F' then some (c.toNat - 55)
  else none

/-- Read characters up to a semicolon (at most `k` of them), returning the
body and the rest after the semicolon. -/
def upToSemi : ℕ → List Char → Option (List Char × List Char)
  | 0, _ => none
  | _ + 1, [] => none
  | _ + 1, ';' :: t => some ([], t)
  | k + 1, c :: t =>
    match upToSemi k t with
    | some (body, rest) => some (c :: body, rest)
    | none => none

/-- Worker for `pyUnescape` (fuel-driven scan). -/
def pyUnescapeAux : ℕ → List Char → List Char
  | 0, s => s
  | _ + 1, [] => []
  | f + 1, '&' :: t =>
    match t with
    | '#' :: 'x' :: u =>
      (match upToSemi 8 u with
       | some (body, rest) =>
         if body ≠ [] ∧ body.all (fun c => (hexVal c).isSome) then
           decodeCodepoint (body.foldl (fun n c => n * 16 + ((hexVal c).getD 0)) 0) ::
             pyUnescapeAux f rest
         else '&' :: pyUnescapeAux f t
       | none => '&' :: pyUnescapeAux f t)
    | '#' :: u =>
      (match upToSemi 8 u with
       | some (body, rest) =>
         if body ≠ [] ∧ body.all Char.isDigit then
           decodeCodepoint (body.foldl (fun n c => n * 10 + (c.toNat - 48)) 0) ::
             pyUnescapeAux f rest
         else '&' :: pyUnescapeAux f t
       | none => '&' :: pyUnescapeAux f t)
    | _ =>
      (match upToSemi 32 t with
       | some (body, rest) =>
         match entityTable.find? (fun e => e.1.data = body) with
         | some e => e.2 :: pyUnescapeAux f rest
         | none => '&' :: pyUnescapeAux f t
       | none => '&' :: pyUnescapeAux f t)
  | f + 1, c :: t => c :: pyUnescapeAux f t

/-- Python `html.unescape` (modelled fragment, see above). -/
def pyUnescape (s : String) : String :=
  String.mk (pyUnescapeAux (s.data.length + 1) s.data)

/-! Model of `json.loads`, as used by `extract_json_ld_chunks`.  Numbers are
kept as their lexemes because the source only ever inspects JSON values with
`isinstance(..., str)`, `isinstance(..., dict)` and `isinstance(..., list)`;
`\uXXXX` escapes outside the Unicode scalar range decode to U+FFFD (the
source never feeds such input to the claims below). -/

/-- JSON values. -/
inductive JVal where
  | jnull
  | jbool (b : Bool)
  | jnum (lexeme : String)
  | jstr (s : String)
  | jarr (xs : List JVal)
  | jobj (fields : List (String × JVal))

/-- JSON whitespace (space, tab, newline, carriage return). -/
def jSkipWs (s : List Char) : List Char :=
  s.dropWhile (fun c => c = ' ' || c = '\t' || c = '\n' || c = '\r')

/-- Parse the body of a JSON string after its opening quote; returns the
decoded characters and the input after the closing quote.  Unescaped control
characters are rejected, as by `json.loads` in its default strict mode. -/
def jString : List Char → Option (List Char × List Char)
  | [] => none
  | '"' :: t => some ([], t)
  | '\\' :: e :: t =>
    match e with
    | '"' => (jString t).map (fun (cs, r) => ('"' :: cs, r))
    | '\\' => (jString t).map (fun (cs, r) => ('\\' :: cs, r))
    | '/' => (jString t).map (fun (cs, r) => ('/' :: cs, r))
    | 'b' => (jString t).map (fun (cs, r) => ('\x08' :: cs, r))
    | 'f' => (jString t).map (fun (cs, r) => ('\x0c' :: cs, r))
    | 'n' => (jString t).map (fun (cs, r) => ('\n' :: cs, r))
    | 'r' => (jString t).map (fun (cs, r) => ('\r' :: cs, r))
    | 't' => (jString t).map (fun (cs, r) => ('\t' :: cs, r))
    | 'u' =>
      match t with
      | a :: b :: c :: d :: t2 =>
        (match hexVal a, hexVal b, hexVal c, hexVal d with
         | some ha, some hb, some hc, some hd =>
           (jString t2).map (fun (cs, r) =>
             (decodeCodepoint (((ha * 16 + hb) * 16 + hc) * 16 + hd) :: cs, r))
         | _, _, _, _ => none)
      | _ => none
    | _ => none
  | c :: t =>
    if c.toNat < 32 then none
    else (jString t).map (fun (cs, r) => (c :: cs, r))

/-- Scan the integer part, fraction and exponent of a JSON number, returning
its lexeme and the rest of the input. -/
def jNumber (s : List Char) : Option (List Char × List Char) :=
  let (sign, s1) := match s with
    | '-' :: t => (['-'], t)
    | _ => (([] : List Char), s)
  match s1 with
  | [] => none
  | c :: t =>
    if ¬ c.isDigit then none
    else if c = '0' ∧ (t.head?.elim false Char.isDigit) then none
    else
      let intPart := c :: t.takeWhile Char.isDigit
      let r1 := t.dropWhile Char.isDigit
      let (fracPart, r2) := match r1 with
        | '.' :: u =>
          if (u.takeWhile Char.isDigit) = [] then (([] : List Char), r1)
          else ('.' :: u.takeWhile Char.isDigit, u.dropWhile Char.isDigit)
        | _ => (([] : List Char), r1)
      if fracPart = [] ∧ r1.head? = some '.' then none
      else
        let expPart := match r2 with
          | 'e' :: u => some ('e', u)
          | 'E' :: u => some ('E', u)
          | _ => none
        match expPart with
        | none => some (sign ++ intPart ++ fracPart, r2)
        | some (ec, u) =>
          let (esign, u2) := match u with
            | '+' :: v => (['+'], v)
            | '-' :: v => (['-'], v)
            | _ => (([] : List Char), u)
          let eds := u2.takeWhile Char.isDigit
          if eds = [] then none
          else some (sign ++ intPart ++ fracPart ++ (ec :: esign) ++ eds,
                     u2.dropWhile Char.isDigit)

mutual

/-- Parse a JSON value (fuel-driven; `json.loads` also accepts `NaN`,
`Infinity` and `-Infinity`). -/
def jValue : ℕ → List Char → Option (JVal × List Char)
  | 0, _ => none
  | f + 1, s0 =>
    let s := jSkipWs s0
    match s with
    | '\x7b' :: t =>
      (match jSkipWs t with
       | '\x7d' :: u => some (JVal.jobj [], u)
       | u => (jMembers f u).map (fun (fs, r) => (JVal.jobj fs, r)))
    | '[' :: t =>
      (match jSkipWs t with
       | ']' :: u => some (JVal.jarr [], u)
       | u => (jItems f u).map (fun (xs, r) => (JVal.jarr xs, r)))
    | '"' :: t => (jString t).map (fun (cs, r) => (JVal.jstr (String.mk cs), r))
    | 't' :: 'r' :: 'u' :: 'e' :: t => some (JVal.jbool true, t)
    | 'f' :: 'a' :: 'l' :: 's' :: 'e' :: t => some (JVal.jbool false, t)
    | 'n' :: 'u' :: 'l' :: 'l' :: t => some (JVal.jnull, t)
    | 'N' :: 'a' :: 'N' :: t => some (JVal.jnum "NaN", t)
    | 'I' :: 'n' :: 'f' :: 'i' :: 'n' :: 'i' :: 't' :: 'y' :: t =>
      some (JVal.jnum "Infinity", t)
    | '-' :: 'I' :: 'n' :: 'f' :: 'i' :: 'n' :: 'i' :: 't' :: 'y' :: t =>
      some (JVal.jnum "-Infinity", t)
    | _ => (jNumber s).map (fun (cs, r) => (JVal.jnum (String.mk cs), r))

/-- Parse the members of a JSON object, positioned at a key's opening quote. -/
def jMembers : ℕ → List Char → Option (List (String × JVal) × List Char)
  | 0, _ => none
  | f + 1, s =>
    match s with
    | '"' :: t =>
      (match jString t with
       | none => none
       | some (key, r1) =>
         match jSkipWs r1 with
         | ':' :: r2 =>
           (match jValue f r2 with
            | none => none
            | some (v, r3) =>
              match jSkipWs r3 with
              | ',' :: r4 =>
                (jMembers f (jSkipWs r4)).map
                  (fun (fs, r) => ((String.mk key, v) :: fs, r))
              | '\x7d' :: r4 => some ([(String.mk key, v)], r4)
              | _ => none)
         | _ => none)
    | _ => none

/-- Parse the items of a JSON array, positioned at the first item. -/
def jItems : ℕ → List Char → Option (List JVal × List Char)
  | 0, _ => none
  | f + 1, s =>
    match jValue f s with
    | none => none
    | some (v, r1) =>
      match jSkipWs r1 with
      | ',' :: r2 =>
        (jItems f r2).map (fun (xs, r) => (v :: xs, r))
      | ']' :: r2 => some ([v], r2)
      | _ => none

end

/-- Python `json.loads`: a single JSON document with nothing but whitespace
after it; `none` stands for a raised `JSONDecodeError`. -/
def jsonLoads (s : String) : Option JVal :=
  match jValue (2 * s.data.length + 2) s.data with
  | some (v, rest) => if jSkipWs rest = [] then some v else none
  | none => none

/-- Python `dict.get` on a JSON object: last binding wins, as duplicate keys
overwrite in `json.loads`. -/
def jget (fields : List (String × JVal)) (k : String) : Option JVal :=
  ((fields.reverse.find? (fun p => p.1 = k))).map (fun p => p.2)

/-! The concrete regular expressions of `app.py`, atom by atom. -/

/-- Quote class `["\']`. -/
def isQuoteChar (c : Char) : Bool := c = '"' || c = '\x27'

/-- Class `[A-Za-z0-9_가-힣]` of `parse_hashtags`. -/
def tagTokenChar (c : Char) : Bool :=
  ('A' ≤ c && c ≤ 'Z') || ('a' ≤ c && c ≤ 'z') || ('0' ≤ c && c ≤ '9') ||
    c = '_' || ('가' ≤ c && c ≤ '힣')

/-- Source regex `r"<script[\\s\\S]*?</script>"` with `re.IGNORECASE`: in the
raw string, `[\\s\\S]` is the three-character class backslash/`s`/`S`, matched
lazily. -/
def scriptBlockPat : RPattern :=
  [(RAtom.lit "<script".data true, false),
   (RAtom.cls (fun c => c = '\\' || c = 's' || c = 'S') 0 none false, false),
   (RAtom.lit "</script>".data true, false)]

/-- Source regex `r"<style[\\s\\S]*?</style>"` with `re.IGNORECASE`. -/
def styleBlockPat : RPattern :=
  [(RAtom.lit "<style".data true, false),
   (RAtom.cls (fun c => c = '\\' || c = 's' || c = 'S') 0 none false, false),
   (RAtom.lit "</style>".data true, false)]

/-- Source regex `r"<[^>]+>"` (no flags). -/
def anyTagPat : RPattern :=
  [(RAtom.lit "<".data false, false),
   (RAtom.cls (fun c => c != '>') 1 none true, false),
   (RAtom.lit ">".data false, false)]

/-- Source regex `r"\\s+"` (no flags): a literal backslash followed by one or
more `s` characters. -/
def backslashSRunPat : RPattern :=
  [(RAtom.lit "\\".data false, false),
   (RAtom.cls (fun c => c = 's') 1 none true, false)]

/-- Source regex `r"<img\\b[^>]*>"` with `re.IGNORECASE`: `<img` followed by a
literal backslash, a `b`, then `[^>]*>`.  Every atom is flagged captured so
`reFindAll` returns whole matches, as `re.findall` does for group-free
patterns. -/
def imgTagPat : RPattern :=
  [(RAtom.lit "<img\\b".data true, true),
   (RAtom.cls (fun c => c != '>') 0 none true, true),
   (RAtom.lit ">".data true, true)]

/-- Source regex `rf'{attr}\\s*=\\s*["\']([^"\']+)["\']'` of `extract_attr`
with `re.IGNORECASE`: attribute name, a literal backslash, optional `s`s, `=`,
another literal backslash and optional `s`s, then a quoted value. -/
def attrValPat (attr : String) : RPattern :=
  [(RAtom.lit attr.data true, false),
   (RAtom.lit "\\".data false, false),
   (RAtom.cls (fun c => c = 's' || c = 'S') 0 none true, false),
   (RAtom.lit "=".data false, false),
   (RAtom.lit "\\".data false, false),
   (RAtom.cls (fun c => c = 's' || c = 'S') 0 none true, false),
   (RAtom.cls isQuoteChar 1 (some 1) true, false),
   (RAtom.cls (fun c => !(isQuoteChar c)) 1 none true, true),
   (RAtom.cls isQuoteChar 1 (some 1) true, false)]

/-- Source regexes `<meta[^>]+property=["\']KEY["\'][^>]+content=["\']([^"\']+)["\']`
and the `name=` variant (both `re.IGNORECASE`), shared by `extract_meta` and
the `og:image` collection of `parse_images`. -/
def metaKeyPat (attrName key : String) : RPattern :=
  [(RAtom.lit "<meta".data true, false),
   (RAtom.cls (fun c => c != '>') 1 none true, false),
   (RAtom.lit (attrName ++ "=").data true, false),
   (RAtom.cls isQuoteChar 1 (some 1) true, false),
   (RAtom.lit key.data true, false),
   (RAtom.cls isQuoteChar 1 (some 1) true, false),
   (RAtom.cls (fun c => c != '>') 1 none true, false),
   (RAtom.lit "content=".data true, false),
   (RAtom.cls isQuoteChar 1 (some 1) true, false),
   (RAtom.cls (fun c => !(isQuoteChar c)) 1 none true, true),
   (RAtom.cls isQuoteChar 1 (some 1) true, false)]

/-- Source regex `r"<a\\b[^>]*href="` with `re.IGNORECASE`: `<a` followed by a
literal backslash and a `b`. -/
def anchorHrefPat : RPattern :=
  [(RAtom.lit "<a\\b".data true, false),
   (RAtom.cls (fun c => c != '>') 0 none true, false),
   (RAtom.lit "href=".data true, false)]

/-- Source regex `r"#([A-Za-z0-9_가-힣]{2,30})"` (no flags). -/
def hashtagPat : RPattern :=
  [(RAtom.lit "#".data false, false),
   (RAtom.cls tagTokenChar 2 (some 30) true, true)]

/-- Source regex `rf'{re.escape(key)}[^0-9]{{0,15}}([0-9]{{1,9}})'` of
`extract_count` with `re.IGNORECASE`. -/
def countKeyPat (key : String) : RPattern :=
  [(RAtom.lit key.data true, false),
   (RAtom.cls (fun c => !(c.isDigit)) 0 (some 15) true, false),
   (RAtom.cls Char.isDigit 1 (some 9) true, true)]

/-- Source regex of `extract_json_ld_chunks` (with `re.IGNORECASE`):
`<script[^>]+type=["\']application/ld\+json["\'][^>]*>([\s\S]*?)</script>` —
this one is written with single backslashes, so `[\s\S]` really is
any-character and `\+` a literal plus. -/
def jsonLdScriptPat : RPattern :=
  [(RAtom.lit "<script".data true, false),
   (RAtom.cls (fun c => c != '>') 1 none true, false),
   (RAtom.lit "type=".data true, false),
   (RAtom.cls isQuoteChar 1 (some 1) true, false),
   (RAtom.lit "application/ld+json".data true, false),
   (RAtom.cls isQuoteChar 1 (some 1) true, false),
   (RAtom.cls (fun c => c != '>') 0 none true, false),
   (RAtom.lit ">".data true, false),
   (RAtom.cls (fun _ => true) 0 none false, true),
   (RAtom.lit "</script>".data true, false)]

/-- Source regex `r"<title>([\s\S]*?)</title>"` with `re.IGNORECASE`. -/
def titleTagPat : RPattern :=
  [(RAtom.lit "<title>".data true, false),
   (RAtom.cls (fun _ => true) 0 none false, true),
   (RAtom.lit "</title>".data true, false)]

/-- Source regex `(portrait|face|selfie|인물|셀카)` with `re.IGNORECASE`. -/
def portraitCluePat : RPattern :=
  [(RAtom.alts ["portrait".data, "face".data, "selfie".data, "인물".data, "셀카".data]
      true, true)]

/-- Source regex `(저|제가|나는|내가)` (no flags). -/
def firstPersonPat : RPattern :=
  [(RAtom.alts ["저".data, "제가".data, "나는".data, "내가".data] false, true)]

/-- Source regex `r"\\s{2,}"` (no flags): literal backslash then two or more
`s` characters. -/
def weirdSpacesPat : RPattern :=
  [(RAtom.lit "\\".data false, false),
   (RAtom.cls (fun c => c = 's') 2 none true, false)]

/-- Source regex `r"[!?.,]{3,}"`. -/
def repeatedPunctPat : RPattern :=
  [(RAtom.cls (fun c => c = '!' || c = '?' || c = '.' || c = ',') 3 none true, false)]

/-- Source regex `r"[ㄱ-ㅎㅏ-ㅣ]{3,}"` (Hangul compatibility jamo runs). -/
def jamoRunPat : RPattern :=
  [(RAtom.cls (fun c => ('ㄱ' ≤ c && c ≤ 'ㅎ') || ('ㅏ' ≤ c && c ≤ 'ㅣ')) 3 none true, false)]

/-- Source regex `r"20\\d{2}[./년-]\\s?\\d{1,2}"` (no flags): because of the
doubled backslashes, each `\\d`/`\\s` is a literal backslash followed by a
quantified letter. -/
def dateHitPat : RPattern :=
  [(RAtom.lit "20".data false, false),
   (RAtom.lit "\\".data false, false),
   (RAtom.cls (fun c => c = 'd') 2 (some 2) true, false),
   (RAtom.cls (fun c => c = '.' || c = '/' || c = '년' || c = '-') 1 (some 1) true, false),
   (RAtom.lit "\\".data false, false),
   (RAtom.cls (fun c => c = 's') 0 (some 1) true, false),
   (RAtom.lit "\\".data false, false),
   (RAtom.cls (fun c => c = 'd') 1 (some 2) true, false)]

/-- Source regex `r"\\d+[.,]?\\d*"` (no flags), likewise with literal
backslashes. -/
def numberHitPat : RPattern :=
  [(RAtom.lit "\\".data false, false),
   (RAtom.cls (fun c => c = 'd') 1 none true, false),
   (RAtom.cls (fun c => c = '.' || c = ',') 0 (some 1) true, false),
   (RAtom.lit "\\".data false, false),
   (RAtom.cls (fun c => c = 'd') 0 none true, false)]

/-- Source regex `r"[.!?]+"` of `sentence_stats`. -/
def sentenceSplitPat : RPattern :=
  [(RAtom.cls (fun c => c = '.' || c = '!' || c = '?') 1 none true, false)]

/-! The extraction functions of `app.py`. -/

/-- Image record built by `parse_images` (the Python dict
`{"src": ..., "alt": ..., "width": ..., "height": ...}`). -/
structure ImgInfo where
  src : String
  alt : String
  width : Option ℤ
  height : Option ℤ
deriving DecidableEq, Repr

/-- Function `safe_int` of `app.py`: `None`/empty → `None`; otherwise strip
commas and parse with `int`, exceptions becoming `None`. -/
def safe_int (value : Option String) : Option ℤ :=
  match value with
  | none => none
  | some s =>
    if s = "" then none
    else pyInt (String.mk (s.data.filter (fun c => c != ',')))

/-- Function `strip_tags` of `app.py` (each substitution step mirrors one
`re.sub` of the source). -/
def strip_tags (text : String) : String :=
  let t1 := reSub scriptBlockPat " " text
  let t2 := reSub styleBlockPat " " t1
  let t3 := reSub anyTagPat " " t2
  let t4 := pyUnescape t3
  let t5 := reSub backslashSRunPat " " t4
  pyStrip t5

/-- Function `extract_attr` of `app.py`. -/
def extract_attr (tag attr : String) : Option String :=
  (reSearch (attrValPat attr) tag).map (fun v => pyStrip v)

/-- Function `parse_images` of `app.py`, including the `srcset` candidate
scan and the trailing `og:image` collection (first 20, deduplicated by
`src`). -/
def parse_images (html_text : String) : List ImgInfo :=
  let img_tags := reFindAll imgTagPat html_text
  let images := img_tags.foldl (fun images tag =>
    match extract_attr tag "src" with
    | none => images
    | some src =>
      if src = "" then images
      else
        let alt := (extract_attr tag "alt").getD ""
        let width := safe_int (extract_attr tag "width")
        let height := safe_int (extract_attr tag "height")
        let images := images ++ [ImgInfo.mk src alt width height]
        let srcset := (extract_attr tag "srcset").getD ""
        if srcset = "" then images
        else
          (pySplitOn srcset ',').foldl (fun imgs chunk =>
            let part := pyStrip (String.mk ((pyStrip chunk).data.takeWhile (fun c => c != ' ')))
            if part != "" && !(imgs.any (fun im => im.src = part)) then
              imgs ++ [ImgInfo.mk part alt none none]
            else imgs) images) []
  let og_images := (reFindAll (metaKeyPat "property" "og:image") html_text).take 20
  og_images.foldl (fun imgs src =>
    if imgs.any (fun im => im.src = src) then imgs
    else imgs ++ [ImgInfo.mk src "" none none]) images

/-- Function `parse_links_count` of `app.py`. -/
def parse_links_count (html_text : String) : ℕ :=
  (reFindAll anchorHrefPat html_text).length

/-- Function `parse_hashtags` of `app.py`. -/
def parse_hashtags (text : String) : List String :=
  reFindAll hashtagPat text

/-- Function `extract_count` of `app.py`: first key whose pattern matches
wins; the digit group always parses, so the `try` never falls through. -/
def extract_count (html_text : String) (keys : List String) : Option ℕ :=
  keys.findSome? (fun key => (reSearch (countKeyPat key) html_text).map natOfDigits)

/-- Function `extract_meta` of `app.py`: the `property=` pattern is tried on
the whole document before the `name=` pattern; the first pattern that matches
at all supplies the (unescaped, stripped) result. -/
def extract_meta (html_text key : String) : String :=
  match reSearch (metaKeyPat "property" key) html_text with
  | some v => pyStrip (pyUnescape v)
  | none =>
    match reSearch (metaKeyPat "name" key) html_text with
    | some v => pyStrip (pyUnescape v)
    | none => ""

/-- Function `extract_json_ld_chunks` of `app.py`: each script body is
stripped and JSON-parsed; dict results are kept, list results contribute
their dict members, parse failures are skipped. -/
def extract_json_ld_chunks (html_text : String) : List (List (String × JVal)) :=
  (reFindAll jsonLdScriptPat html_text).foldl (fun parsed chunk =>
    let text := pyStrip chunk
    if text = "" then parsed
    else
      match jsonLoads text with
      | some (JVal.jobj fields) => parsed ++ [fields]
      | some (JVal.jarr xs) =>
        parsed ++ xs.filterMap (fun x =>
          match x with
          | JVal.jobj fields => some fields
          | _ => none)
      | _ => parsed) []

/-- Function `coalesce` of `app.py`: first string whose strip is non-empty,
returned stripped (all call sites pass strings, so the `isinstance` guard is
always satisfied). -/
def coalesce (values : List String) : String :=
  match values.find? (fun v => pyStrip v != "") with
  | some v => pyStrip v
  | none => ""

/-- The inline `<title>` extraction of `parse_common` (lines 226–227):
`re.search` for the title element, then unescape and strip, else empty. -/
def titleTagContent (html_text : String) : String :=
  match reSearch titleTagPat html_text with
  | some v => pyStrip (pyUnescape v)
  | none => ""

/-- The parsed-content dictionary returned by `parse_common`. -/
structure ParsedContent where
  text : String
  links : ℕ
  images : List ImgInfo
  hashtags : List String
  likes : Option ℕ
  comments : Option ℕ
  title : String
  description : String
  json_ld_count : ℕ
  word_count : ℕ
deriving DecidableEq, Repr

/-- One step of the JSON-LD text merge of `parse_common`: a string candidate
with non-empty strip that is not already a substring of the text is appended
(stripped) with a single separating space. -/
def mergeCandidate (t : String) (cand : Option JVal) : String :=
  match cand with
  | some (JVal.jstr c) =>
    if pyStrip c != "" && !(isSubstring c t) then pyStrip (t ++ " " ++ pyStrip c) else t
  | _ => t

/-- Function `parse_common` of `app.py`. -/
def parse_common (html_text : String) : ParsedContent :=
  if html_text = "" then
    { text := "", links := 0, images := [], hashtags := [], likes := none,
      comments := none, title := "", description := "", json_ld_count := 0,
      word_count := 0 }
  else
    let text := strip_tags html_text
    let images := parse_images html_text
    let links := parse_links_count html_text
    let hashtags := parse_hashtags text
    let likes := extract_count html_text ["like_count", "likes", "좋아요"]
    let comments := extract_count html_text ["comment_count", "comments", "댓글"]
    let json_ld := extract_json_ld_chunks html_text
    let title := coalesce [extract_meta html_text "og:title", titleTagContent html_text]
    let description := coalesce [extract_meta html_text "og:description",
      extract_meta html_text "description"]
    let merged := json_ld.foldl (fun (acc : String × List String) fields =>
      let text1 := mergeCandidate acc.1 (jget fields "articleBody")
      let text2 := mergeCandidate text1 (jget fields "caption")
      let text3 := mergeCandidate text2 (jget fields "description")
      let tags := match jget fields "keywords" with
        | some (JVal.jstr k) =>
          acc.2 ++ (pySplitOn k ',').filterMap (fun w =>
            if pyStrip w != "" then some (pyLstripHash (pyStrip w)) else none)
        | _ => acc.2
      (text3, tags)) (text, hashtags)
    let text := merged.1
    let hashtags := (merged.2).filter (fun h => 2 ≤ h.length)
    let hashtags := (pyDedup hashtags).take 80
    let likes := match likes with
      | some v => some v
      | none => extract_count html_text ["edge_media_preview_like", "likeCount", "reaction_count"]
    let comments := match comments with
      | some v => some v
      | none => extract_count html_text ["edge_media_to_comment", "commentCount"]
    { text := text, links := links, images := images, hashtags := hashtags,
      likes := likes, comments := comments, title := title,
      description := description, json_ld_count := json_ld.length,
      word_count := pyWordCount text }

/-! Rounding and clamping.  Python's `round` on floats is round-half-to-even;
the scores live on a scale where `round(2x)/2` maps `[1,5]` onto the half-step
grid.  A `ℚ` version serves the purely rational scorers and an `ℝ` version
the `math.log10`-based engagement scorer. -/

/-- Round-half-to-even to an integer (Python `round`), over `ℚ`. -/
def roundHalfEven (x : ℚ) : ℤ :=
  if x - ⌊x⌋ < 1 / 2 then ⌊x⌋
  else if 1 / 2 < x - ⌊x⌋ then ⌊x⌋ + 1
  else if 2 ∣ ⌊x⌋ then ⌊x⌋ else ⌊x⌋ + 1

/-- Function `round_half` of `app.py` (`round(value * 2) / 2`), over `ℚ`. -/
def round_half (value : ℚ) : ℚ := (roundHalfEven (value * 2) : ℚ) / 2

/-- Round-half-to-even to an integer (Python `round`), over `ℝ`. -/
noncomputable def roundHalfEvenR (x : ℝ) : ℤ :=
  if x - ⌊x⌋ < 1 / 2 then ⌊x⌋
  else if 1 / 2 < x - ⌊x⌋ then ⌊x⌋ + 1
  else if 2 ∣ ⌊x⌋ then ⌊x⌋ else ⌊x⌋ + 1

/-- Function `round_half` of `app.py`, over `ℝ`. -/
noncomputable def round_halfR (value : ℝ) : ℝ := (roundHalfEvenR (value * 2) : ℝ) / 2

/-- Function `clamp_1_5` of `app.py` (`max(1.0, min(5.0, value))`), over `ℚ`. -/
def clamp_1_5 (value : ℚ) : ℚ := max 1 (min 5 value)

/-- Function `clamp_1_5` of `app.py`, over `ℝ` (for the engagement scorer). -/
noncomputable def clamp_1_5R (value : ℝ) : ℝ := max 1 (min 5 value)

/-! The rubric scorers of `app.py`. -/

/-- Function `sentence_stats` of `app.py`: split on `[.!?]+` runs, keep
fragments whose strip has length ≥ 2, return their number and average
length. -/
def sentence_stats (text : String) : ℕ × ℚ :=
  if text = "" then (0, 0)
  else
    let sentences := (reSplit sentenceSplitPat text).filterMap (fun s =>
      let st := pyStrip s
      if 2 ≤ st.length then some st else none)
    if sentences = [] then (0, 0)
    else (sentences.length,
      ((sentences.map String.length).sum : ℚ) / (sentences.length : ℚ))

/-- Function `score_image_quality` of `app.py`. -/
def score_image_quality (images : List ImgInfo) : ℚ :=
  if images = [] then 2.0
  else
    let count_score := min 2.0 ((images.length : ℚ) / 5)
    let sized := (images.filter (fun img =>
      match img.width, img.height with
      | some w, some h => 500 ≤ w && 500 ≤ h
      | _, _ => false)).length
    let with_alt := (images.filter (fun img => img.alt != "")).length
    let size_score := min 1.5 ((sized : ℚ) / (max 1 images.length : ℕ) * 1.5)
    let alt_score := min 1.5 ((with_alt : ℚ) / (max 1 images.length : ℕ) * 1.5)
    clamp_1_5 (1.0 + count_score + size_score + alt_score)

/-- Keyword list of `score_blog_sincerity_objectivity`. -/
def objectivity_keywords : List String :=
  ["장점", "단점", "비교", "근거", "수치", "후기", "개인적", "주관", "객관"]

/-- Function `score_blog_sincerity_objectivity` of `app.py`. -/
def score_blog_sincerity_objectivity (text : String) (links : ℕ) : ℚ :=
  if text = "" then 2.0
  else
    let keyword_hits := (objectivity_keywords.filter (fun kw => isSubstring kw text)).length
    let keyword_score := min 2.0 ((keyword_hits : ℚ) * 0.25)
    let link_score := min 1.0 ((links : ℚ) * 0.2)
    let first_person_ratio :=
      ((reFindAll firstPersonPat text).length : ℚ) / (max 1.0 ((text.length : ℚ) / 50))
    let balance_score : ℚ :=
      if 0.2 ≤ first_person_ratio ∧ first_person_ratio ≤ 2.5 then 1.0 else 0.6
    clamp_1_5 (1.2 + keyword_score + link_score + balance_score)

/-- Connective list of `score_blog_narrative`. -/
def structure_words : List String :=
  ["처음", "먼저", "다음", "그리고", "결론", "정리", "마지막"]

/-- Function `score_blog_narrative` of `app.py`. -/
def score_blog_narrative (text : String) : ℚ :=
  let stats := sentence_stats text
  if stats.1 = 0 then 1.8
  else
    let structure_hits := (structure_words.filter (fun w => isSubstring w text)).length
    let sentence_score : ℚ := if 6 ≤ stats.1 ∧ stats.1 ≤ 80 then 1.0 else 0.6
    let length_score : ℚ := if 20 ≤ stats.2 ∧ stats.2 ≤ 70 then 1.2 else 0.7
    let structure_score := min 1.8 ((structure_hits : ℚ) * 0.35)
    clamp_1_5 (1.0 + sentence_score + length_score + structure_score)

/-- Function `score_blog_spelling` of `app.py`. -/
def score_blog_spelling (text : String) : ℚ :=
  if text = "" then 2.2
  else
    let weird_spaces := (reFindAll weirdSpacesPat text).length
    let repeated_punct := (reFindAll repeatedPunctPat text).length
    let typo_like := (reFindAll jamoRunPat text).length
    let penalties := (weird_spaces : ℚ) * 0.1 + (repeated_punct : ℚ) * 0.25 +
      (typo_like : ℚ) * 0.25
    let base := 4.6 - min 3.2 penalties
    clamp_1_5 base

/-- Source-hint list of `score_blog_factuality`. -/
def source_words : List String := ["출처", "통계", "공식", "자료", "리포트", "논문"]

/-- Function `score_blog_factuality` of `app.py`. -/
def score_blog_factuality (text : String) (links : ℕ) : ℚ :=
  if text = "" then 2.0
  else
    let date_hits := (reFindAll dateHitPat text).length
    let number_hits := (reFindAll numberHitPat text).length
    let source_hits := (source_words.filter (fun w => isSubstring w text)).length
    let evidence_score := min 2.5 ((date_hits : ℚ) * 0.5 + (number_hits : ℚ) * 0.05 +
      (source_hits : ℚ) * 0.5)
    let link_score := min 1.0 ((links : ℚ) * 0.2)
    clamp_1_5 (1.0 + evidence_score + link_score)

/-- Function `score_insta_subject` of `app.py` (delegates to
`score_image_quality`). -/
def score_insta_subject (images : List ImgInfo) : ℚ :=
  score_image_quality images

/-- Function `score_insta_appearance` of `app.py`. -/
def score_insta_appearance (text : String) (images : List ImgInfo) : ℚ :=
  if images = [] then 2.5
  else
    let portrait_clues := (reFindAll portraitCluePat text).length
    let rich_alt := (images.filter (fun img => 8 ≤ img.alt.length)).length
    clamp_1_5 (2.0 + min 1.5 ((portrait_clues : ℚ) * 0.3) +
      min 1.5 ((rich_alt : ℚ) * 0.25))

/-- Function `score_insta_hashtag_rarity` of `app.py` (`len(set(hashtags))`
is the number of distinct entries, computed here by deduplication). -/
def score_insta_hashtag_rarity (hashtags : List String) : ℚ :=
  if hashtags = [] then 2.0
  else
    let uniq := (pyDedup hashtags).length
    let avg_len := ((hashtags.map String.length).sum : ℚ) / (hashtags.length : ℚ)
    let short_generic := (hashtags.filter (fun h => h.length ≤ 3)).length
    let uniq_score := min 2.2 ((uniq : ℚ) / (max 1 hashtags.length : ℕ) * 2.2)
    let len_score : ℚ := if 6 ≤ avg_len then 1.2 else 0.7
    let generic_penalty := min 1.2 ((short_generic : ℚ) * 0.2)
    clamp_1_5 (1.3 + uniq_score + len_score - generic_penalty)

/-- Function `score_insta_engagement` of `app.py` (`math.log10` becomes
`Real.logb 10`). -/
noncomputable def score_insta_engagement (likes comments : Option ℕ) : ℝ :=
  if likes = none ∧ comments = none then 3.0
  else
    let like_part : ℝ := match likes with
      | none => 0.0
      | some l => min 2.0 (Real.logb 10 ((max 1 l : ℕ) : ℝ) * 0.8)
    let comment_part : ℝ := match comments with
      | none => 0.0
      | some c => min 2.0 (Real.logb 10 ((max 1 (c + 1) : ℕ) : ℝ) * 1.0)
    clamp_1_5R (1.0 + like_part + comment_part)

/-! The narrative composer of `app.py`. -/

/-- Source regex `r"\s+"` of `snippet` (line 268) — written with a single
backslash there, so this one genuinely collapses whitespace. -/
def snippetWsPat : RPattern :=
  [(RAtom.cls pyIsSpace 1 none true, false)]

/-- Function `snippet` of `app.py`. -/
def snippet (text : String) (limit : ℕ) : String :=
  let clean := pyStrip (reSub snippetWsPat " " text)
  if clean.length ≤ limit then
    (if clean = "" then "본문 텍스트를 충분히 추출하지 못했습니다." else clean)
  else pyRstrip (String.mk (clean.data.take limit)) ++ "..."

/-- Function `score_label` of `app.py`. -/
noncomputable def score_label (score : ℝ) : String :=
  if 4.5 ≤ score then "매우 우수"
  else if 3.5 ≤ score then "양호"
  else if 2.5 ≤ score then "보통"
  else "개선 필요"

/-- The `diagnosis` dictionary of `build_item_review`, as a total lookup on
the four labels `score_label` can produce. -/
def diagnosis_phrase (label : String) : String :=
  if label = "매우 우수" then "핵심 지표에서 높은 신뢰도를 보였습니다"
  else if label = "양호" then "기본 완성도는 충분하지만 더 정교한 보강 여지가 있습니다"
  else if label = "보통" then "품질이 균일하지 않아 강점과 약점이 함께 관찰됩니다"
  else "현재 데이터 기준으로 보완 우선순위가 높은 상태입니다"

/-- Python's `f"{x:.1f}"` for the non-negative scores that occur here:
round-half-even at one decimal. -/
noncomputable def pyFormat1f (x : ℝ) : String :=
  let n := roundHalfEvenR (x * 10)
  toString (n / 10) ++ "." ++ toString (n % 10)

/-- Function `build_item_review` of `app.py` (the `item` argument is unused
in the source as well). -/
noncomputable def build_item_review (item : String) (score : ℝ) (basis : String) : String :=
  let label := score_label score
  label ++ " (" ++ pyFormat1f score ++ "/5). " ++ diagnosis_phrase label ++ ". " ++ basis

/-- ASCII lowering (Python `str.lower`; the lexicons below are ASCII or
Korean, and Hangul has no case). -/
def pyLower (s : String) : String := String.mk (s.data.map Char.toLower)

/-- Code-point lexicographic comparison backing Python's `sorted` on
strings. -/
def charListLe : List Char → List Char → Bool
  | [], _ => true
  | _ :: _, [] => false
  | a :: as, b :: bs => if a = b then charListLe as bs else decide (a < b)

/-- Insert into a sorted list of strings. -/
def insertSorted (a : String) : List String → List String
  | [] => [a]
  | b :: t => if charListLe a.data b.data then a :: b :: t else b :: insertSorted a t

/-- Python `sorted` on a list of strings (ascending code-point order). -/
def sortStrings : List String → List String
  | [] => []
  | a :: t => insertSorted a (sortStrings t)

/-- The `place_words` lexicon of `detect_place_clues`. -/
def place_words : List String :=
  ["카페", "레스토랑", "해변", "공원", "스튜디오", "호텔", "거리", "매장", "오피스", "집",
   "seoul", "busan", "tokyo", "paris", "new york", "beach", "cafe", "restaurant", "studio"]

/-- Function `detect_place_clues` of `app.py` (`sorted(set(hits))[:4]`
becomes sort-after-dedup, then take 4). -/
def detect_place_clues (text : String) : String :=
  let hits := place_words.filter (fun w => isSubstring (pyLower w) (pyLower text))
  if hits = [] then "장소 단서를 명확히 확인하지 못했습니다."
  else
    let uniq := String.intercalate ", " ((sortStrings (pyDedup hits)).take 4)
    "배경 장소 단서: " ++ uniq

/-- The `product_words` lexicon of `detect_product_focus`. -/
def product_words : List String :=
  ["제품", "브랜드", "신상", "리뷰", "광고", "협찬", "출시", "model", "review", "brand"]

/-- Function `detect_product_focus` of `app.py`. -/
def detect_product_focus (text : String) (hashtags : List String) : String :=
  let has_product_word := product_words.any (fun w => isSubstring (pyLower w) (pyLower text))
  let product_tags := hashtags.filter (fun h =>
    ["ad", "review", "brand", "item", "제품", "리뷰"].any (fun k => isSubstring k (pyLower h)))
  if has_product_word || !product_tags.isEmpty then
    let tag_preview :=
      if product_tags ≠ [] then String.intercalate ", " (product_tags.take 3)
      else "관련 키워드 기반"
    "제품 주목성은 감지됨 (" ++ tag_preview ++ ")."
  else "제품 중심 메시지는 상대적으로 약하거나 확인되지 않았습니다."

/-- Function `build_blog_overview` of `app.py`. -/
def build_blog_overview (parsed : ParsedContent) : List String :=
  let images := parsed.images
  let image_with_alt := (images.filter (fun img => pyStrip img.alt != "")).length
  let image_types :=
    if images = [] then "일반 이미지"
    else
      let hi_res := (images.filter (fun img =>
        match img.width, img.height with
        | some w, some h => 500 ≤ w && 500 ≤ h
        | _, _ => false)).length
      "고해상도 추정 " ++ toString hi_res ++ "장 / 전체 " ++ toString images.length ++ "장"
  ["페이지 제목/설명: " ++ snippet (coalesce [parsed.title, parsed.description]) 120,
   "포스팅 내용 요약: " ++ snippet parsed.text 200,
   "첨부 이미지 요약: " ++ image_types ++ ", 대체텍스트(alt) 포함 " ++
     toString image_with_alt ++ "장, 구조화데이터(JSON-LD) " ++
     toString parsed.json_ld_count ++ "개"]

/-- Function `build_insta_overview` of `app.py`. -/
def build_insta_overview (parsed : ParsedContent) : List String :=
  let portrait_clues := (reFindAll portraitCluePat parsed.text).length
  ["포스트 핵심 문구: " ++ snippet (coalesce [parsed.description, parsed.title, parsed.text]) 120,
   "이미지 배경 장소: " ++ detect_place_clues parsed.text,
   "인물 전반 평가: 인물/셀카 단서 " ++ toString portrait_clues ++ "건, 이미지 수 " ++
     toString parsed.images.length ++ "장 기반으로 시각 연출 품질을 판정했습니다.",
   "제품 주목성: " ++ detect_product_focus parsed.text parsed.hashtags]

/-- Total stand-in for Python's `scores[key]` on the score dictionaries: in
`evaluate` the looked-up key is always present, so the default is never
reached. -/
def scoreOf (scores : List (String × ℝ)) (k : String) : ℝ :=
  ((scores.find? (fun p => p.1 = k)).map (fun p => p.2)).getD 0

/-- Function `build_blog_reviews` of `app.py`. -/
noncomputable def build_blog_reviews (scores : List (String × ℝ)) (parsed : ParsedContent) :
    List (String × String) :=
  let images := parsed.images
  let alt_count := (images.filter (fun i => i.alt != "")).length
  [("이미지 퀄리티", build_item_review "이미지 퀄리티" (scoreOf scores "이미지 퀄리티")
      ("이미지 " ++ toString images.length ++ "장을 확인했고 alt 텍스트 " ++
        toString alt_count ++ "장, srcset/og:image 후보까지 포함해 시각 자료 밀도와 설명력을 평가했습니다.")),
   ("진정성/객관성", build_item_review "진정성/객관성" (scoreOf scores "진정성/객관성")
      ("본문 약 " ++ toString parsed.word_count ++ "단어, 참고 링크 " ++
        toString parsed.links ++ "개, 주관/객관 단어 균형을 근거로 개인 경험과 정보 전달의 균형도를 판정했습니다.")),
   ("내러티브", build_item_review "내러티브" (scoreOf scores "내러티브")
      "문장 길이 분포, 전개 접속어(처음/다음/결론) 존재, 도입-전개-정리 흐름의 일관성을 종합했습니다."),
   ("맞춤법/표기", build_item_review "맞춤법/표기" (scoreOf scores "맞춤법/표기")
      "반복 문장부호, 비정상 공백, 자모 반복 패턴과 문장 가독성을 함께 반영해 표기 안정성을 계산했습니다."),
   ("정보 사실성", build_item_review "정보 사실성" (scoreOf scores "정보 사실성")
      ("숫자/날짜/출처 단서, 링크 " ++ toString parsed.links ++ "개, JSON-LD " ++
        toString parsed.json_ld_count ++ "개를 근거로 검증 가능한 정보의 비율을 평가했습니다."))]

/-- Function `build_insta_reviews` of `app.py`. -/
noncomputable def build_insta_reviews (scores : List (String × ℝ)) (parsed : ParsedContent) :
    List (String × String) :=
  let text_hint := coalesce [parsed.description, parsed.title]
  [("피사체 퀄리티", build_item_review "피사체 퀄리티" (scoreOf scores "피사체 퀄리티")
      ("이미지 " ++ toString parsed.images.length ++
        "장의 수량, 해상도 단서, 대체텍스트 구성도를 종합해 프레이밍/피사체 선명도를 간접 추정했습니다.")),
   ("인물 표현 점수", build_item_review "인물 표현 점수" (scoreOf scores "인물 표현 점수")
      "인물/셀카 키워드, 포스트 설명문, 이미지 설명을 결합해 인물 중심 연출의 일관성과 전달력을 판단했습니다."),
   ("해시태그 희소성", build_item_review "해시태그 희소성" (scoreOf scores "해시태그 희소성")
      ("해시태그 " ++ toString parsed.hashtags.length ++
        "개의 고유 비율과 길이, 범용 태그 편중도를 바탕으로 검색 경쟁 회피 가능성을 평가했습니다.")),
   ("좋아요/댓글 반응", build_item_review "좋아요/댓글 반응" (scoreOf scores "좋아요/댓글 반응")
      ("좋아요 " ++ (match parsed.likes with
        | some v => toString v
        | none => "미확인") ++ ", 댓글 " ++ (match parsed.comments with
        | some v => toString v
        | none => "미확인") ++ "를 반영했고, 설명문 단서(\x27" ++ snippet text_hint 40 ++
        "\x27)와의 적합도도 참고했습니다."))]

/-- Python `min(scores, key=scores.get)`: the key with the smallest value,
first-encountered winning ties; the empty case never occurs in `evaluate`. -/
noncomputable def minKeyByVal : List (String × ℝ) → String
  | [] => ""
  | p :: t => (t.foldl (fun best q => if q.2 < best.2 then q else best) p).1

/-- Python `max(scores, key=scores.get)`, first-encountered winning ties. -/
noncomputable def maxKeyByVal : List (String × ℝ) → String
  | [] => ""
  | p :: t => (t.foldl (fun best q => if best.2 < q.2 then q else best) p).1

/-- Function `build_summary` of `app.py`. -/
noncomputable def build_summary (content_type : String) (avg : ℝ)
    (scores : List (String × ℝ)) : String :=
  let tone :=
    if 4.3 ≤ avg then "완성도가 높고 신뢰 가능한 콘텐츠입니다."
    else if 3.4 ≤ avg then "전반적으로 안정적이지만 일부 개선 여지가 있습니다."
    else "핵심 품질 지표에서 보완이 필요합니다."
  let weakest := minKeyByVal scores
  let strongest := maxKeyByVal scores
  "Sally 평가 결과, " ++ tone ++ " 강점은 \x27" ++ strongest ++
    "\x27 항목이고 개선 우선순위는 \x27" ++ weakest ++ "\x27 항목입니다. 유형: " ++ content_type

/-! The evaluation orchestrator. -/

/-- The `EvalResult` dataclass of `app.py`. -/
structure EvalResult where
  content_type : String
  url : String
  scores : List (String × ℝ)
  reviews : List (String × String)
  overview : List String
  average : ℝ
  summary : String
  notes : List String

/-- The Instagram score dictionary built inline in `evaluate`. -/
noncomputable def insta_scores (parsed : ParsedContent) : List (String × ℝ) :=
  [("피사체 퀄리티", ((round_half (score_insta_subject parsed.images) : ℚ) : ℝ)),
   ("인물 표현 점수", ((round_half (score_insta_appearance parsed.text parsed.images) : ℚ) : ℝ)),
   ("해시태그 희소성", ((round_half (score_insta_hashtag_rarity parsed.hashtags) : ℚ) : ℝ)),
   ("좋아요/댓글 반응", round_halfR (score_insta_engagement parsed.likes parsed.comments))]

/-- The blog score dictionary built inline in `evaluate`. -/
noncomputable def blog_scores (parsed : ParsedContent) : List (String × ℝ) :=
  [("이미지 퀄리티", ((round_half (score_image_quality parsed.images) : ℚ) : ℝ)),
   ("진정성/객관성", ((round_half (score_blog_sincerity_objectivity parsed.text parsed.links) : ℚ) : ℝ)),
   ("내러티브", ((round_half (score_blog_narrative parsed.text) : ℚ) : ℝ)),
   ("맞춤법/표기", ((round_half (score_blog_spelling parsed.text) : ℚ) : ℝ)),
   ("정보 사실성", ((round_half (score_blog_factuality parsed.text parsed.links) : ℚ) : ℝ))]

/-- Function `evaluate` of `app.py`.  The network call `fetch_html(url)` is a
collaborator outside the pure pipeline; its outcome is passed in as the pair
`(html_text, notes)`, over which the theorems below quantify. -/
noncomputable def evaluate (content_type url html_text : String) (notes : List String) :
    EvalResult :=
  let parsed := parse_common html_text
  if content_type = "instagram" then
    let scores := insta_scores parsed
    let reviews := build_insta_reviews scores parsed
    let overview := build_insta_overview parsed
    let avg := round_halfR (((scores.map (fun p => p.2)).sum) / (scores.length : ℝ))
    let summary := build_summary "인스타그램 피드" avg scores
    EvalResult.mk "인스타그램 피드" url scores reviews overview avg summary notes
  else
    let scores := blog_scores parsed
    let reviews := build_blog_reviews scores parsed
    let overview := build_blog_overview parsed
    let avg := round_halfR (((scores.map (fun p => p.2)).sum) / (scores.length : ℝ))
    let summary := build_summary "네이버 블로그 포스팅" avg scores
    EvalResult.mk "네이버 블로그 포스팅" url scores reviews overview avg summary notes

/-! Notions used by the claims. -/

/-- The blog rubric categories, in the dictionary order of `evaluate`. -/
def blogCategories : List String :=
  ["이미지 퀄리티", "진정성/객관성", "내러티브", "맞춤법/표기", "정보 사실성"]

/-- The Instagram rubric categories, in the dictionary order of `evaluate`. -/
def instaCategories : List String :=
  ["피사체 퀄리티", "인물 표현 점수", "해시태그 희소성", "좋아요/댓글 반응"]

/-- Membership in the half-step grid `{1.0, 1.5, ..., 5.0}`. -/
def onHalfGrid (x : ℝ) : Prop := ∃ k : ℤ, 2 ≤ k ∧ k ≤ 10 ∧ x = (k : ℝ) / 2

/-- Pointwise predicate over a list, as an iterated conjunction. -/
def listAll {α : Type _} (P : α → Prop) : List α → Prop
  | [] => True
  | a :: t => P a ∧ listAll P t

/-- The token shape claimed for hashtag entries: 2–30 characters, all
letters/digits/underscore/Hangul. -/
def isValidTagToken (s : String) : Bool :=
  2 ≤ s.length && s.length ≤ 30 && s.data.all tagTokenChar

theorem listAll_iff {α : Type _} (P : α → Prop) :
    ∀ l : List α, listAll P l ↔ ∀ a ∈ l, P a := by
  intro l
  induction l with
  | nil => simp [listAll]
  | cons a t ih => simp [listAll, ih]

/-! Bounds and grid lemmas for the rounding pipeline. -/

theorem clamp_1_5_bounds (x : ℚ) : 1 ≤ clamp_1_5 x ∧ clamp_1_5 x ≤ 5 :=
  ⟨le_max_left 1 _, max_le (by norm_num) (min_le_left 5 x)⟩

theorem clamp_1_5R_bounds (x : ℝ) : 1 ≤ clamp_1_5R x ∧ clamp_1_5R x ≤ 5 :=
  ⟨le_max_left 1 _, max_le (by norm_num) (min_le_left 5 x)⟩

theorem roundHalfEven_mem {x : ℚ} {a b : ℤ} (h1 : (a : ℚ) ≤ x) (h2 : x ≤ (b : ℚ)) :
    a ≤ roundHalfEven x ∧ roundHalfEven x ≤ b := by
  have hfl : a ≤ ⌊x⌋ := Int.le_floor.mpr h1
  have hfu : (⌊x⌋ : ℚ) ≤ x := Int.floor_le x
  have hub : ⌊x⌋ ≤ b := by exact_mod_cast hfu.trans h2
  unfold roundHalfEven
  split_ifs with hlt hgt hev
  · exact ⟨hfl, hub⟩
  · have hx : (⌊x⌋ : ℚ) + 1 / 2 < (b : ℚ) := by linarith
    have hbq : (⌊x⌋ : ℚ) < (b : ℚ) := by linarith
    have hb2 : ⌊x⌋ < b := by exact_mod_cast hbq
    exact ⟨by omega, by omega⟩
  · exact ⟨hfl, hub⟩
  · have hx : x - ⌊x⌋ = 1 / 2 := le_antisymm (not_lt.mp hgt) (not_lt.mp hlt)
    have hbq : (⌊x⌋ : ℚ) + 1 / 2 ≤ (b : ℚ) := by linarith
    have hb2 : (⌊x⌋ : ℚ) < (b : ℚ) := by linarith
    have hb3 : ⌊x⌋ < b := by exact_mod_cast hb2
    exact ⟨by omega, by omega⟩

theorem round_half_grid {x : ℚ} (h1 : 1 ≤ x) (h2 : x ≤ 5) :
    ∃ k : ℤ, 2 ≤ k ∧ k ≤ 10 ∧ round_half x = (k : ℚ) / 2 := by
  refine ⟨roundHalfEven (x * 2), ?_, ?_, rfl⟩
  · exact (roundHalfEven_mem (a := 2) (b := 10) (by push_cast; linarith)
      (by push_cast; linarith)).1
  · exact (roundHalfEven_mem (a := 2) (b := 10) (by push_cast; linarith)
      (by push_cast; linarith)).2

theorem roundHalfEvenR_mem {x : ℝ} {a b : ℤ} (h1 : (a : ℝ) ≤ x) (h2 : x ≤ (b : ℝ)) :
    a ≤ roundHalfEvenR x ∧ roundHalfEvenR x ≤ b := by
  have hfl : a ≤ ⌊x⌋ := Int.le_floor.mpr h1
  have hfu : (⌊x⌋ : ℝ) ≤ x := Int.floor_le x
  have hub : ⌊x⌋ ≤ b := by exact_mod_cast hfu.trans h2
  unfold roundHalfEvenR
  split_ifs with hlt hgt hev
  · exact ⟨hfl, hub⟩
  · have hx : (⌊x⌋ : ℝ) + 1 / 2 < (b : ℝ) := by linarith
    have hbq : (⌊x⌋ : ℝ) < (b : ℝ) := by linarith
    have hb2 : ⌊x⌋ < b := by exact_mod_cast hbq
    exact ⟨by omega, by omega⟩
  · exact ⟨hfl, hub⟩
  · have hx : x - ⌊x⌋ = 1 / 2 := le_antisymm (not_lt.mp hgt) (not_lt.mp hlt)
    have hbq : (⌊x⌋ : ℝ) + 1 / 2 ≤ (b : ℝ) := by linarith
    have hb2 : (⌊x⌋ : ℝ) < (b : ℝ) := by linarith
    have hb3 : ⌊x⌋ < b := by exact_mod_cast hb2
    exact ⟨by omega, by omega⟩

theorem onHalfGrid_round_halfR {x : ℝ} (h1 : 1 ≤ x) (h2 : x ≤ 5) :
    onHalfGrid (round_halfR x) := by
  refine ⟨roundHalfEvenR (x * 2), ?_, ?_, rfl⟩
  · exact (roundHalfEvenR_mem (a := 2) (b := 10) (by push_cast; linarith)
      (by push_cast; linarith)).1
  · exact (roundHalfEvenR_mem (a := 2) (b := 10) (by push_cast; linarith)
      (by push_cast; linarith)).2

theorem onHalfGrid_cast {q : ℚ} (h1 : 1 ≤ q) (h2 : q ≤ 5) :
    onHalfGrid ((round_half q : ℚ) : ℝ) := by
  obtain ⟨k, hk1, hk2, hk3⟩ := round_half_grid h1 h2
  exact ⟨k, hk1, hk2, by rw [hk3]; push_cast; ring⟩

/-! Range lemmas for the individual scorers: every scorer yields a value in
`[1, 5]` (either a fallback constant in range, or a clamped expression). -/

theorem score_image_quality_bounds (images : List ImgInfo) :
    1 ≤ score_image_quality images ∧ score_image_quality images ≤ 5 := by
  simp only [score_image_quality]
  split_ifs <;> first
  | exact clamp_1_5_bounds _
  | norm_num

theorem score_blog_sincerity_objectivity_bounds (text : String) (links : ℕ) :
    1 ≤ score_blog_sincerity_objectivity text links ∧
      score_blog_sincerity_objectivity text links ≤ 5 := by
  simp only [score_blog_sincerity_objectivity]
  split_ifs <;> first
  | exact clamp_1_5_bounds _
  | norm_num

theorem score_blog_narrative_bounds (text : String) :
    1 ≤ score_blog_narrative text ∧ score_blog_narrative text ≤ 5 := by
  simp only [score_blog_narrative]
  split_ifs <;> first
  | exact clamp_1_5_bounds _
  | norm_num

theorem score_blog_spelling_bounds (text : String) :
    1 ≤ score_blog_spelling text ∧ score_blog_spelling text ≤ 5 := by
  simp only [score_blog_spelling]
  split_ifs <;> first
  | exact clamp_1_5_bounds _
  | norm_num

theorem score_blog_factuality_bounds (text : String) (links : ℕ) :
    1 ≤ score_blog_factuality text links ∧ score_blog_factuality text links ≤ 5 := by
  simp only [score_blog_factuality]
  split_ifs <;> first
  | exact clamp_1_5_bounds _
  | norm_num

theorem score_insta_subject_bounds (images : List ImgInfo) :
    1 ≤ score_insta_subject images ∧ score_insta_subject images ≤ 5 :=
  score_image_quality_bounds images

theorem score_insta_appearance_bounds (text : String) (images : List ImgInfo) :
    1 ≤ score_insta_appearance text images ∧ score_insta_appearance text images ≤ 5 := by
  simp only [score_insta_appearance]
  split_ifs <;> first
  | exact clamp_1_5_bounds _
  | norm_num

theorem score_insta_hashtag_rarity_bounds (hashtags : List String) :
    1 ≤ score_insta_hashtag_rarity hashtags ∧ score_insta_hashtag_rarity hashtags ≤ 5 := by
  simp only [score_insta_hashtag_rarity]
  split_ifs <;> first
  | exact clamp_1_5_bounds _
  | norm_num

theorem score_insta_engagement_bounds (likes comments : Option ℕ) :
    1 ≤ score_insta_engagement likes comments ∧ score_insta_engagement likes comments ≤ 5 := by
  simp only [score_insta_engagement]
  split_ifs <;> first
  | exact clamp_1_5R_bounds _
  | norm_num

/-! Deduplication lemmas for `pyDedup`. -/

theorem pyDedupAux_subset {l seen : List String} {a : String}
    (h : a ∈ pyDedupAux seen l) : a ∈ l := by
  induction l generalizing seen with
  | nil => simp [pyDedupAux] at h
  | cons b t ih =>
    by_cases hb : b ∈ seen
    · simp only [pyDedupAux, if_pos hb] at h
      exact List.mem_cons_of_mem _ (ih h)
    · simp only [pyDedupAux, if_neg hb, List.mem_cons] at h
      rcases h with h | h
      · exact h ▸ List.mem_cons_self _ _
      · exact List.mem_cons_of_mem _ (ih h)

theorem pyDedupAux_not_mem {l seen : List String} {a : String}
    (h : a ∈ seen) : a ∉ pyDedupAux seen l := by
  induction l generalizing seen with
  | nil => simp [pyDedupAux]
  | cons b t ih =>
    by_cases hb : b ∈ seen
    · simpa only [pyDedupAux, if_pos hb] using ih h
    · simp only [pyDedupAux, if_neg hb, List.mem_cons, not_or]
      exact ⟨fun he => hb (he ▸ h), ih (List.mem_cons_of_mem _ h)⟩

theorem pyDedupAux_nodup (l : List String) : ∀ seen, (pyDedupAux seen l).Nodup := by
  induction l with
  | nil => intro seen; simp [pyDedupAux]
  | cons b t ih =>
    intro seen
    by_cases hb : b ∈ seen
    · simpa only [pyDedupAux, if_pos hb] using ih seen
    · simp only [pyDedupAux, if_neg hb, List.nodup_cons]
      exact ⟨pyDedupAux_not_mem (List.mem_cons_self _ _), ih _⟩

theorem pyDedup_nodup (l : List String) : (pyDedup l).Nodup :=
  pyDedupAux_nodup l []

theorem pyDedup_subset {l : List String} {a : String} (h : a ∈ pyDedup l) : a ∈ l :=
  pyDedupAux_subset h

theorem pyDedupAux_eq_self {l : List String} (hnd : l.Nodup) :
    ∀ seen, (∀ a ∈ l, a ∉ seen) → pyDedupAux seen l = l := by
  induction l with
  | nil => intro seen _; rfl
  | cons b t ih =>
    intro seen hs
    have hb : b ∉ seen := hs b (List.mem_cons_self _ _)
    simp only [pyDedupAux, if_neg hb]
    have hnd2 := (List.nodup_cons.mp hnd)
    refine congrArg (List.cons b) (ih hnd2.2 _ ?_)
    intro a ha
    simp only [List.mem_cons, not_or]
    exact ⟨fun he => hnd2.1 (he ▸ ha), hs a (List.mem_cons_of_mem _ ha)⟩

theorem pyDedup_eq_self {l : List String} (hnd : l.Nodup) : pyDedup l = l :=
  pyDedupAux_eq_self hnd [] (by simp)

/-! Projections of `evaluate`. -/

theorem evaluate_scores (ct url html : String) (notes : List String) :
    (evaluate ct url html notes).scores =
      if ct = "instagram" then insta_scores (parse_common html)
      else blog_scores (parse_common html) := by
  by_cases h : ct = "instagram" <;> simp [evaluate, h]

theorem evaluate_notes (ct url html : String) (notes : List String) :
    (evaluate ct url html notes).notes = notes := by
  by_cases h : ct = "instagram" <;> simp [evaluate, h]

theorem evaluate_reviews (ct url html : String) (notes : List String) :
    (evaluate ct url html notes).reviews =
      if ct = "instagram" then
        build_insta_reviews (insta_scores (parse_common html)) (parse_common html)
      else build_blog_reviews (blog_scores (parse_common html)) (parse_common html) := by
  by_cases h : ct = "instagram" <;> simp [evaluate, h]

theorem evaluate_overview (ct url html : String) (notes : List String) :
    (evaluate ct url html notes).overview =
      if ct = "instagram" then build_insta_overview (parse_common html)
      else build_blog_overview (parse_common html) := by
  by_cases h : ct = "instagram" <;> simp [evaluate, h]

theorem blog_scores_keys (p : ParsedContent) :
    (blog_scores p).map Prod.fst = blogCategories := rfl

theorem insta_scores_keys (p : ParsedContent) :
    (insta_scores p).map Prod.fst = instaCategories := rfl

theorem blog_scores_grid (p : ParsedContent) :
    listAll (fun q : String × ℝ => onHalfGrid q.2) (blog_scores p) := by
  refine ⟨?_, ?_, ?_, ?_, ?_, trivial⟩
  · exact onHalfGrid_cast (score_image_quality_bounds _).1 (score_image_quality_bounds _).2
  · exact onHalfGrid_cast (score_blog_sincerity_objectivity_bounds _ _).1
      (score_blog_sincerity_objectivity_bounds _ _).2
  · exact onHalfGrid_cast (score_blog_narrative_bounds _).1 (score_blog_narrative_bounds _).2
  · exact onHalfGrid_cast (score_blog_spelling_bounds _).1 (score_blog_spelling_bounds _).2
  · exact onHalfGrid_cast (score_blog_factuality_bounds _ _).1
      (score_blog_factuality_bounds _ _).2

theorem insta_scores_grid (p : ParsedContent) :
    listAll (fun q : String × ℝ => onHalfGrid q.2) (insta_scores p) := by
  refine ⟨?_, ?_, ?_, ?_, trivial⟩
  · exact onHalfGrid_cast (score_insta_subject_bounds _).1 (score_insta_subject_bounds _).2
  · exact onHalfGrid_cast (score_insta_appearance_bounds _ _).1
      (score_insta_appearance_bounds _ _).2
  · exact onHalfGrid_cast (score_insta_hashtag_rarity_bounds _).1
      (score_insta_hashtag_rarity_bounds _).2
  · exact onHalfGrid_round_halfR (score_insta_engagement_bounds _ _).1
      (score_insta_engagement_bounds _ _).2

/-- C1: for every HTML input and both content-type variants, every category
score in the report returned by `evaluate` lies on the half-step grid
`{1.0, 1.5, ..., 5.0}` (in particular it is a well-defined value in
`[1, 5]`), and the score mapping lists each rubric category of the selected
variant exactly once (the blog rubric being selected for every tag other than
`"instagram"`). -/
theorem C1_scores_on_half_grid (ct url html : String) (notes : List String) :
    listAll (fun q : String × ℝ => onHalfGrid q.2) (evaluate ct url html notes).scores ∧
    (evaluate ct url html notes).scores.map Prod.fst =
      (if ct = "instagram" then instaCategories else blogCategories) ∧
    ((evaluate ct url html notes).scores.map Prod.fst).Nodup := by
  rw [evaluate_scores]
  by_cases h : ct = "instagram"
  · rw [if_pos h, if_pos h, insta_scores_keys]
    exact ⟨insta_scores_grid _, rfl, by decide⟩
  · rw [if_neg h, if_neg h, blog_scores_keys]
    exact ⟨blog_scores_grid _, rfl, by decide⟩

/-! Claim C2: fallback values for empty HTML. -/

theorem blog_scores_empty :
    blog_scores (parse_common "") =
      [("이미지 퀄리티", (2 : ℝ)), ("진정성/객관성", 2), ("내러티브", 2),
       ("맞춤법/표기", 2), ("정보 사실성", 2)] := by
  have h1 : round_half (score_image_quality ([] : List ImgInfo)) = 2 := by
    norm_num [score_image_quality, round_half, roundHalfEven]
  have h2 : round_half (score_blog_sincerity_objectivity "" 0) = 2 := by
    norm_num [score_blog_sincerity_objectivity, round_half, roundHalfEven]
  have h3 : round_half (score_blog_narrative "") = 2 := by
    norm_num [score_blog_narrative, sentence_stats, round_half, roundHalfEven]
  have h4 : round_half (score_blog_spelling "") = 2 := by
    norm_num [score_blog_spelling, round_half, roundHalfEven]
  have h5 : round_half (score_blog_factuality "" 0) = 2 := by
    norm_num [score_blog_factuality, round_half, roundHalfEven]
  rw [show parse_common "" = ParsedContent.mk "" 0 [] [] none none "" "" 0 0 from rfl]
  simp only [blog_scores, h1, h2, h3, h4, h5]
  norm_num

/-- C2 counterexample: on empty fetched HTML the report does not carry the
scorer-level fallbacks `1.8` (narrative) and `2.2` (spelling) — `evaluate`
half-rounds every scorer output, so the report value for `내러티브` is `2.0`,
not `1.8`, and for `맞춤법/표기` it is `2.0`, not `2.2`. -/
theorem C2_report_rounds_fallbacks :
    (evaluate "blog" "u" "" []).scores =
      [("이미지 퀄리티", (2 : ℝ)), ("진정성/객관성", 2), ("내러티브", 2),
       ("맞춤법/표기", 2), ("정보 사실성", 2)] ∧
    ((2 : ℝ) ≠ 1.8 ∧ (2 : ℝ) ≠ 2.2) := by
  refine ⟨?_, by norm_num, by norm_num⟩
  rw [evaluate_scores, if_neg (by decide), blog_scores_empty]

/-- C2 amended: on empty HTML the scorer functions themselves return the
documented fallbacks (image quality 2.0, sincerity 2.0, narrative 1.8,
spelling 2.2, factuality 2.0), and the resulting report carries their
half-rounded values, which are all exactly 2.0. -/
theorem C2_empty_html_fallbacks (url : String) (notes : List String) :
    score_image_quality [] = 2 ∧
    score_blog_sincerity_objectivity "" 0 = 2 ∧
    score_blog_narrative "" = 1.8 ∧
    score_blog_spelling "" = 2.2 ∧
    score_blog_factuality "" 0 = 2 ∧
    listAll (fun q : String × ℝ => q.2 = 2) (evaluate "blog" url "" notes).scores := by
  refine ⟨by norm_num [score_image_quality], by norm_num [score_blog_sincerity_objectivity],
    by norm_num [score_blog_narrative, sentence_stats], by norm_num [score_blog_spelling],
    by norm_num [score_blog_factuality], ?_⟩
  rw [evaluate_scores, if_neg (by decide), blog_scores_empty]
  exact ⟨rfl, rfl, rfl, rfl, rfl, trivial⟩

/-! Claim C3: the HTML normalizer. -/

/-- C3 (code bug): `strip_tags` does not remove `<script>…</script>` payloads
and does not collapse whitespace runs, because the source regexes
`r"<script[\\s\\S]*?</script>"` and `r"\\s+"` contain doubled backslashes in
raw strings and therefore match literal backslashes.  On this input the claim
demands `"a & b c"`; the code yields the script body `bad()` and the double
space intact (entity decoding and tag removal do work). -/
theorem C3_strip_tags_failing_input :
    strip_tags "<script>bad()</script>a &amp; b  c" = "bad() a & b  c" ∧
    isSubstring "bad()" (strip_tags "<script>bad()</script>a &amp; b  c") = true ∧
    isSubstring "  " (strip_tags "<script>bad()</script>a &amp; b  c") = true := by
  decide

/-! Claim C4: the image-quality scorer on five well-formed images. -/

/-- The input of C4: `<img src="a.jpg" width="600" height="600" alt="x">`
repeated five times. -/
def imgTimes5 : String :=
  String.join (List.replicate 5 "<img src=\"a.jpg\" width=\"600\" height=\"600\" alt=\"x\">")

/-- C4 (code bug): the image regex `r"<img\\b[^>]*>"` requires a literal
backslash-`b` after `<img`, so no image is extracted from the five well-formed
tags and the scorer returns its empty-list fallback 2.0 instead of the claimed
5.0. -/
theorem C4_image_quality_failing_input :
    parse_images imgTimes5 = [] ∧
    score_image_quality (parse_images imgTimes5) = 2 := by
  have h : parse_images imgTimes5 = [] := by decide
  exact ⟨h, by rw [h]; norm_num [score_image_quality]⟩

/-! Claim C7: the anchor link count. -/

/-- C7 (code bug): the link regex `r"<a\\b[^>]*href="` requires a literal
backslash-`b` after `<a`, so a perfectly ordinary anchor with an `href`
attribute is not counted: the claim demands a positive count here. -/
theorem C7_links_count_failing_input :
    parse_links_count "<a href=\"https://e.com\">x</a>" = 0 := by
  decide

/-! Claim C5: totality of the orchestrator. -/

/-- C5: for every content-type tag and every fetch outcome (html, notes),
`evaluate` produces a complete report: the notes are passed through (so a
non-empty diagnostic list stays non-empty), scores, reviews and overview are
non-empty, and every tag other than `"instagram"` — in particular every tag
outside the recognized pair — is scored with the blog rubric. -/
theorem C5_evaluate_total_report (ct url html : String) (notes : List String) :
    (evaluate ct url html notes).notes = notes ∧
    (1 ≤ notes.length → 1 ≤ (evaluate ct url html notes).notes.length) ∧
    (evaluate ct url html notes).scores ≠ [] ∧
    (evaluate ct url html notes).reviews ≠ [] ∧
    (evaluate ct url html notes).overview ≠ [] ∧
    (ct ≠ "instagram" → (evaluate ct url html notes).scores.map Prod.fst = blogCategories) := by
  refine ⟨evaluate_notes ct url html notes, ?_, ?_, ?_, ?_, ?_⟩
  · intro h
    rw [evaluate_notes]
    exact h
  · rw [evaluate_scores]
    by_cases h : ct = "instagram"
    · simp [h, insta_scores]
    · simp [h, blog_scores]
  · rw [evaluate_reviews]
    by_cases h : ct = "instagram"
    · simp [h, build_insta_reviews]
    · simp [h, build_blog_reviews]
  · rw [evaluate_overview]
    by_cases h : ct = "instagram"
    · simp [h, build_insta_overview]
    · simp [h, build_blog_overview]
  · intro h
    rw [evaluate_scores, if_neg h, blog_scores_keys]

/-- C5 witness: a fetch failure outcome (empty HTML, one diagnostic note) with
an unrecognized tag still yields a report with a non-empty notes list, scored
with the blog rubric. -/
theorem C5_evaluate_total_report_witness :
    1 ≤ (evaluate "x" "u" "" ["note"]).notes.length ∧
    (evaluate "x" "u" "" ["note"]).scores.map Prod.fst = blogCategories :=
  ⟨(C5_evaluate_total_report "x" "u" "" ["note"]).2.1 (by decide),
   (C5_evaluate_total_report "x" "u" "" ["note"]).2.2.2.2.2 (by decide)⟩

/-! Claim C6: the hashtag-list invariants. -/

theorem hashtag_pipeline_invariants (l : List String) :
    ((pyDedup (l.filter (fun h => 2 ≤ h.length))).take 80).Nodup ∧
    ((pyDedup (l.filter (fun h => 2 ≤ h.length))).take 80).length ≤ 80 ∧
    listAll (fun h => 2 ≤ h.length) ((pyDedup (l.filter (fun h => 2 ≤ h.length))).take 80) := by
  refine ⟨(List.take_sublist _ _).nodup (pyDedup_nodup _), List.length_take_le 80 _, ?_⟩
  rw [listAll_iff]
  intro a ha
  have h2 := pyDedup_subset (List.mem_of_mem_take ha)
  exact of_decide_eq_true (List.mem_filter.mp h2).2

/-- The input of C6's counterexample: a JSON-LD block whose `keywords`
string seeds a hashtag entry. -/
def ldKeywordsHtml : String :=
  "<p>x</p><script type=\"application/ld+json\">\x7b\"keywords\": \"hello world!\"\x7d</script>"

/-- C6 counterexample: the hashtag list can contain an entry seeded from
JSON-LD `keywords` that is not a 2–30-character letters/digits/underscore/
Hangul token — here `"hello world!"`, which carries a space and a `!` (the
length/charset filter of `parse_hashtags` is never applied to keyword-seeded
entries; only the `len ≥ 2` filter is). -/
theorem C6_keyword_entry_not_token :
    "hello world!" ∈ (parse_common ldKeywordsHtml).hashtags ∧
    isValidTagToken "hello world!" = false :=
  ⟨by decide, by decide⟩

/-- C6 amended: for every HTML input the hashtag list is duplicate-free
(first-seen order), has at most 80 entries, and every entry has length ≥ 2;
the 2–30-character restricted-alphabet token shape holds for entries produced
by the hashtag regex but not necessarily for entries seeded from JSON-LD
`keywords`. -/
theorem C6_hashtag_list_invariants (html : String) :
    ((parse_common html).hashtags).Nodup ∧
    (parse_common html).hashtags.length ≤ 80 ∧
    listAll (fun h => 2 ≤ h.length) (parse_common html).hashtags := by
  by_cases h : html = ""
  · subst h
    exact ⟨List.nodup_nil, by decide, trivial⟩
  · simp only [parse_common, if_neg h]
    exact hashtag_pipeline_invariants _

/-! Claim C8: the engagement scorer. -/

/-- C8: the engagement scorer returns exactly 3.0 when both likes and
comments are absent; with likes = 0 and comments absent it returns exactly
1.0, still 1.0 after half-rounding; and whenever at least one count is
present it equals the clamp to `[1, 5]` of
`1.0 + min(2.0, log10(max(1, likes)) · 0.8) + min(2.0, log10(max(1, comments+1)) · 1.0)`,
absent parts contributing 0. -/
theorem C8_engagement_formula :
    score_insta_engagement none none = 3 ∧
    score_insta_engagement (some 0) none = 1 ∧
    round_halfR (score_insta_engagement (some 0) none) = 1 ∧
    (∀ likes comments : Option ℕ, ¬(likes = none ∧ comments = none) →
      score_insta_engagement likes comments =
        clamp_1_5R (1.0 +
          (match likes with
           | none => 0.0
           | some l => min 2.0 (Real.logb 10 ((max 1 l : ℕ) : ℝ) * 0.8)) +
          (match comments with
           | none => 0.0
           | some c => min 2.0 (Real.logb 10 ((max 1 (c + 1) : ℕ) : ℝ) * 1.0)))) := by
  have h2 : score_insta_engagement (some 0) none = 1 := by
    unfold score_insta_engagement
    rw [if_neg (by simp)]
    norm_num [Real.logb_one, clamp_1_5R, min_def, max_def]
  have h3 : round_halfR (1 : ℝ) = 1 := by
    norm_num [round_halfR, roundHalfEvenR]
  refine ⟨?_, h2, by rw [h2]; exact h3, ?_⟩
  · unfold score_insta_engagement
    rw [if_pos ⟨rfl, rfl⟩]
    norm_num
  · intro likes comments h
    unfold score_insta_engagement
    rw [if_neg h]

/-- C8 witness: concrete evaluation of the general branch at likes = 0,
comments absent. -/
theorem C8_engagement_formula_witness :
    ¬((some 0 : Option ℕ) = none ∧ (none : Option ℕ) = none) ∧
    score_insta_engagement (some 0) none =
      clamp_1_5R (1.0 + min 2.0 (Real.logb 10 ((max 1 0 : ℕ) : ℝ) * 0.8) + 0.0) :=
  ⟨by simp, C8_engagement_formula.2.2.2 (some 0) none (by simp)⟩

/-! Claim C9: title resolution. -/

/-- Content of the first `property=`-style meta match for a key (trimmed and
entity-decoded), empty when the pattern has no match. -/
def metaPropContent (html_text key : String) : String :=
  match reSearch (metaKeyPat "property" key) html_text with
  | some v => pyStrip (pyUnescape v)
  | none => ""

/-- Content of the first `name=`-style meta match for a key (trimmed and
entity-decoded), empty when the pattern has no match. -/
def metaNameContent (html_text key : String) : String :=
  match reSearch (metaKeyPat "name" key) html_text with
  | some v => pyStrip (pyUnescape v)
  | none => ""

/-- Formalisation of C9's wording (the spec side of the comparison, not the
code): the title is the first non-empty, trimmed, decoded match among the
Open-Graph title property, the meta `name` attribute, and the `<title>`
element, in that order. -/
def titleByClaim (html_text : String) : String :=
  coalesce [metaPropContent html_text "og:title", metaNameContent html_text "og:title",
    titleTagContent html_text]

/-- The input of C9's counterexample: a whitespace-only `og:title` property
followed by a non-empty `og:title` meta name attribute. -/
def ogTitleShadowHtml : String :=
  "<meta property=\"og:title\" content=\" \"><meta name=\"og:title\" content=\"X\">"

/-- C9 counterexample: the claimed resolution order would pick `"X"` from the
meta `name` attribute (the property match trims to empty), but the code's
`extract_meta` returns the first *matching* pattern's content — here the
whitespace-only property content — so the resulting title is empty, not
`"X"`. -/
theorem C9_whitespace_property_shadows_name :
    (parse_common ogTitleShadowHtml).title = "" ∧
    titleByClaim ogTitleShadowHtml = "X" ∧
    (parse_common ogTitleShadowHtml).title ≠ titleByClaim ogTitleShadowHtml :=
  ⟨by decide, by decide, by decide⟩

/-- C9 amended: the title is the first non-empty candidate among the result
of `extract_meta` for `og:title` (which returns the trimmed, decoded content
of the first pattern that matches at all — `property=` before `name=`, the
`name=` fallback never being consulted when the property pattern matches with
whitespace-only content) and the trimmed, decoded `<title>` element; when no
pattern matches anywhere the title is the empty string. -/
theorem C9_title_resolution (html : String) :
    (parse_common html).title =
      coalesce [extract_meta html "og:title", titleTagContent html] ∧
    (∀ v, reSearch (metaKeyPat "property" "og:title") html = some v →
      extract_meta html "og:title" = pyStrip (pyUnescape v)) ∧
    (reSearch (metaKeyPat "property" "og:title") html = none →
      ∀ v, reSearch (metaKeyPat "name" "og:title") html = some v →
        extract_meta html "og:title" = pyStrip (pyUnescape v)) ∧
    (reSearch (metaKeyPat "property" "og:title") html = none →
      reSearch (metaKeyPat "name" "og:title") html = none →
      titleTagContent html = "" →
      (parse_common html).title = "") := by
  have hc1 : (parse_common html).title =
      coalesce [extract_meta html "og:title", titleTagContent html] := by
    by_cases h : html = ""
    · subst h
      decide
    · simp only [parse_common, if_neg h]
  refine ⟨hc1, ?_, ?_, ?_⟩
  · intro v hv
    simp only [extract_meta, hv]
  · intro h0 v hv
    simp only [extract_meta, h0, hv]
  · intro h0 h1 h2
    rw [hc1, h2]
    simp only [extract_meta, h0, h1]
    decide

/-- C9 witness: with no meta and no title element at all, the resolved title
is empty. -/
theorem C9_title_resolution_witness : (parse_common "").title = "" :=
  (C9_title_resolution "").2.2.2 (by decide) (by decide) (by decide)

/-! Claim C10: saturation of the unique-fraction term. -/

theorem rarity_saturated {hs : List String} (hnd : hs.Nodup) (hne : hs ≠ []) :
    score_insta_hashtag_rarity hs =
      clamp_1_5 (1.3 + 2.2 +
        (if 6 ≤ ((hs.map String.length).sum : ℚ) / (hs.length : ℚ) then 1.2 else 0.7) -
        min 1.2 (((hs.filter (fun h => h.length ≤ 3)).length : ℚ) * 0.2)) := by
  have hlen : 1 ≤ hs.length := List.length_pos.mpr hne
  have hded : pyDedup hs = hs := pyDedup_eq_self hnd
  have hmax : max 1 hs.length = hs.length := Nat.max_eq_right hlen
  have hcast : ((hs.length : ℚ)) ≠ 0 := Nat.cast_ne_zero.mpr (by omega)
  simp only [score_insta_hashtag_rarity, if_neg hne, hded, hmax]
  rw [div_self hcast, one_mul, min_self]

/-- C10: `parse_common` always returns a duplicate-free hashtag list, so
whenever the hashtag-rarity scorer is reached through `evaluate` with a
non-empty list, its unique-fraction term saturates at the 2.2 cap and the
score is the clamp to `[1, 5]` of
`1.3 + 2.2 + (1.2 if avg length ≥ 6 else 0.7) − min(1.2, 0.2 · #(tags of length ≤ 3))`:
the unique-fraction heuristic never differentiates inputs reached through the
public interface. -/
theorem C10_unique_fraction_saturates (html : String) :
    ((parse_common html).hashtags).Nodup ∧
    ((parse_common html).hashtags ≠ [] →
      score_insta_hashtag_rarity (parse_common html).hashtags =
        clamp_1_5 (1.3 + 2.2 +
          (if 6 ≤ (((parse_common html).hashtags.map String.length).sum : ℚ) /
              ((parse_common html).hashtags.length : ℚ) then 1.2 else 0.7) -
          min 1.2 ((((parse_common html).hashtags.filter (fun h => h.length ≤ 3)).length : ℚ)
            * 0.2))) := by
  have hnd : ((parse_common html).hashtags).Nodup := by
    by_cases h : html = ""
    · subst h
      exact List.nodup_nil
    · simp only [parse_common, if_neg h]
      exact (List.take_sublist _ _).nodup (pyDedup_nodup _)
  exact ⟨hnd, fun hne => rarity_saturated hnd hne⟩

/-- C10 witness: a page with hashtags `#hello #world` reaches the scorer with
a non-empty duplicate-free list, and the score equals the saturated formula,
concretely `4.2`. -/
theorem C10_unique_fraction_saturates_witness :
    (parse_common "x #hello #world").hashtags ≠ [] ∧
    score_insta_hashtag_rarity (parse_common "x #hello #world").hashtags = 21 / 5 := by
  have hhs : (parse_common "x #hello #world").hashtags = ["hello", "world"] := by decide
  have h := (C10_unique_fraction_saturates "x #hello #world").2
    (by rw [hhs]; decide)
  refine ⟨by rw [hhs]; decide, ?_⟩
  rw [h, hhs]
  have hA : ("hello" : String).length = 5 := rfl
  have hB : ("world" : String).length = 5 := rfl
  have hf : List.filter (fun h => decide (h.length ≤ 3)) (["hello", "world"] : List String)
      = [] := by decide
  norm_num [clamp_1_5, hA, hB, hf, min_def, max_def]

end Sally
